import Mathlib

/-!
Verification of `pkg/logs/sender/connection_manager.go` (datadog-agent logs sender).

The Go file implements a `ConnectionManager` with:
  * `NewConnectionManager` — constructor;
  * `NewConnection` — a blocking retry loop: optional one-time info log,
    `retries++`, dial (SOCKS5 proxy or direct TCP), optional TLS handshake,
    and on success `retries = 0`, spawn `handleServerClose`, return the conn;
  * `backoff` — sleeps `min(backoffSleepTimeUnit * retries, maxBackoffSleepTime)` seconds;
  * `handleServerClose` — a watcher loop doing 1-byte reads: on `io.EOF` it
    calls `CloseConnection` and returns, on any other error it warns and
    returns, otherwise it loops;
  * `CloseConnection` — closes the given conn.

The embedding below is a faithful shallow model.  Effects (log lines, sleeps,
dials, handshakes, closes) are recorded as an `Event` trace.  The outcome of
each fallible external operation (SOCKS5 proxy construction, dial, TLS
handshake) is supplied by an `AttemptEnv` oracle, one per loop iteration, and
the unbounded `for` loop is driven by a list of such oracles (an empty list
models a still-blocking loop that has exhausted the observed iterations).

One behaviour of the source is modelled exactly as written, shadowing bug
included: inside the `if cm.socksProxy != ""` branch the statement
`proxyDialer, err := proxy.SOCKS5(...)` re-declares `err` in the inner scope,
so the subsequent `outConn, err = proxyDialer.Dial(...)` assigns the dial
error to the shadowed inner `err`; the `if err != nil` check after the branch
reads the outer `err`, which is still nil.  A failed proxy dial therefore
falls through with `outConn == nil`: with TLS enabled the handshake
dereferences a nil conn (modelled as `StepResult.crashed`), and with
`devModeNoSSL` the function returns a nil conn.
-/

/-- Go constant `backoffSleepTimeUnit = 2` (seconds). -/
def backoffSleepTimeUnit : Int := 2

/-- Go constant `maxBackoffSleepTime = 30` (seconds). -/
def maxBackoffSleepTime : Int := 30

/-- Go constant `timeout = 20 * time.Second`, expressed in seconds. -/
def timeout : Int := 20

/-- The value of a `net.Conn` handle: the Go nil interface value, a raw TCP
stream produced by a dial, or a TLS client wrapped around another conn
(`tls.Client(outConn, config)`). -/
inductive ConnValue
  | nilConn
  | raw
  | tls (inner : ConnValue)
deriving DecidableEq, Repr

/-- Observable effects of the connection manager, in program order. -/
inductive Event
  | infoBackend (target : String)
  | infoProxy (addr : String)
  | dialProxy (addr : String) (target : String) (hasAuth : Bool)
  | dialDirect (target : String) (timeoutSecs : Int)
  | tlsHandshake (serverName : String)
  | warn
  | backoffSleep (seconds : Int)
  | startWatcher
  | close
deriving DecidableEq, Repr

/-- The `ConnectionManager` struct.  The `sync.Mutex` field is not modelled:
the embedding executes one serialized acquisition sequence, which is what the
lock enforces.  Go zero values: `retries = 0`. -/
structure ConnectionManager where
  connectionString : String
  serverName : String
  devModeNoSSL : Bool
  socksProxy : String
  retries : Int
  firstConn : Bool
deriving DecidableEq, Repr

/-- `NewConnectionManager`: fields from the constructor; `retries` is the Go
zero value 0. -/
def NewConnectionManager (serverName : String) (serverPort : Int)
    (devModeNoSSL : Bool) (socksProxy : String) : ConnectionManager :=
  { connectionString := serverName ++ ":" ++ toString serverPort
    serverName := serverName
    devModeNoSSL := devModeNoSSL
    socksProxy := socksProxy
    retries := 0
    firstConn := true }

/-- Oracle for one iteration of the retry loop: whether `proxy.SOCKS5`
returns an error, whether the dial (proxied or direct) returns an error, and
whether `sslConn.Handshake()` returns an error. -/
structure AttemptEnv where
  proxyConstructErr : Bool
  dialErr : Bool
  handshakeErr : Bool
deriving DecidableEq, Repr

/-- The sleep duration computed by `(cm *ConnectionManager) backoff()`:
`backoffDuration := backoffSleepTimeUnit * cm.retries`, capped at
`maxBackoffSleepTime`. -/
def backoff (retries : Int) : Int :=
  let backoffDuration := backoffSleepTimeUnit * retries
  if backoffDuration > maxBackoffSleepTime then maxBackoffSleepTime
  else backoffDuration

/-- Result of one iteration of the `for` loop in `NewConnection`. -/
inductive StepResult
  | again
  | ret (conn : ConnValue)
  | crashed
deriving DecidableEq, Repr

/-- The value held by the Go variable `outConn` after the dial statement in
the proxy branch: `proxyDialer.Dial` assigns nil on error, a raw conn on
success (the error itself goes to the shadowed inner `err`). -/
def dialedConn (env : AttemptEnv) : ConnValue :=
  if env.dialErr then ConnValue.nilConn else ConnValue.raw

/-- The tail of a loop iteration after the dial-error check: the TLS block
(`if !cm.devModeNoSSL`) and the success epilogue (`cm.retries = 0`,
`go cm.handleServerClose(outConn)`, `return outConn`).  Handshaking on a nil
conn dereferences the nil interface, which is a runtime crash. -/
def securePhase (cm : ConnectionManager) (evs : List Event)
    (outConn : ConnValue) (env : AttemptEnv) :
    ConnectionManager × List Event × StepResult :=
  if cm.devModeNoSSL = false then
    if outConn = ConnValue.nilConn then
      (cm, evs ++ [Event.tlsHandshake cm.serverName], StepResult.crashed)
    else if env.handshakeErr then
      (cm, evs ++ [Event.tlsHandshake cm.serverName, Event.warn,
                   Event.backoffSleep (backoff cm.retries)],
       StepResult.again)
    else
      ({ cm with retries := 0 },
       evs ++ [Event.tlsHandshake cm.serverName, Event.startWatcher],
       StepResult.ret (ConnValue.tls outConn))
  else
    ({ cm with retries := 0 }, evs ++ [Event.startWatcher],
     StepResult.ret outConn)

/-- One iteration of the `for` loop of `NewConnection`, exactly as the source
executes it (shadowed-`err` behaviour of the proxy branch included). -/
def attemptStep (cm : ConnectionManager) (env : AttemptEnv) :
    ConnectionManager × List Event × StepResult :=
  let evs0 : List Event :=
    if cm.firstConn then [Event.infoBackend cm.connectionString] else []
  let cm1 : ConnectionManager :=
    { cm with firstConn := false, retries := cm.retries + 1 }
  if cm.socksProxy ≠ "" then
    let evs1 := evs0 ++ [Event.infoProxy cm.socksProxy]
    if env.proxyConstructErr then
      (cm1, evs1 ++ [Event.warn, Event.backoffSleep (backoff cm1.retries)],
       StepResult.again)
    else
      securePhase cm1
        (evs1 ++ [Event.dialProxy cm.socksProxy cm.connectionString false])
        (dialedConn env) env
  else
    let evs1 := evs0 ++ [Event.dialDirect cm.connectionString timeout]
    if env.dialErr then
      (cm1, evs1 ++ [Event.warn, Event.backoffSleep (backoff cm1.retries)],
       StepResult.again)
    else
      securePhase cm1 evs1 ConnValue.raw env

/-- `NewConnection`, driven by one oracle per observed iteration.  The third
component is `none` while the loop is still running (oracle list exhausted),
`some (StepResult.ret c)` when the function returns `c`, and
`some StepResult.crashed` when an iteration crashes. -/
def NewConnection (cm : ConnectionManager) (envs : List AttemptEnv) :
    ConnectionManager × List Event × Option StepResult :=
  match envs with
  | [] => (cm, [], none)
  | env :: rest =>
    let s := attemptStep cm env
    match s.2.2 with
    | StepResult.again =>
      let r := NewConnection s.1 rest
      (r.1, s.2.1 ++ r.2.1, r.2.2)
    | r => (s.1, s.2.1, some r)

/-- A sequence of `NewConnection` calls on the same manager, accumulating the
full event trace. -/
def runCalls (cm : ConnectionManager) (calls : List (List AttemptEnv)) :
    ConnectionManager × List Event :=
  match calls with
  | [] => (cm, [])
  | envs :: rest =>
    let s := NewConnection cm envs
    let r := runCalls s.1 rest
    (r.1, s.2.1 ++ r.2)

/-- `CloseConnection`: delegates to the `Close` primitive of the conn. -/
def CloseConnection : List Event := [Event.close]

/-- Outcome of one blocking 1-byte read in `handleServerClose`. -/
inductive ReadResult
  | okByte (b : Nat)
  | eof
  | readErr
deriving DecidableEq, Repr

/-- Final state of the watcher over the observed reads. -/
inductive WatcherEnd
  | closedConn
  | stoppedOnError
  | stillWatching
deriving DecidableEq, Repr

/-- `handleServerClose`, driven by the sequence of read outcomes: on `io.EOF`
it calls `CloseConnection` and returns; on any other error it warns and
returns; on a successful read it discards the byte and loops. -/
def handleServerClose : List ReadResult → List Event × WatcherEnd
  | [] => ([], WatcherEnd.stillWatching)
  | r :: rest =>
    match r with
    | ReadResult.eof => (CloseConnection, WatcherEnd.closedConn)
    | ReadResult.readErr => ([Event.warn], WatcherEnd.stoppedOnError)
    | ReadResult.okByte _ => handleServerClose rest

/-- Recognizer for `Event.backoffSleep`. -/
@[simp] def isBackoffSleep : Event → Bool
  | Event.backoffSleep _ => true
  | _ => false

/-- Recognizer for `Event.infoBackend`. -/
def isInfoBackend : Event → Bool
  | Event.infoBackend _ => true
  | _ => false

/-- Number of `infoBackend` diagnostics in a trace. -/
def countInfoBackend (evs : List Event) : Nat :=
  (evs.filter isInfoBackend).length

theorem countInfoBackend_append (a b : List Event) :
    countInfoBackend (a ++ b) = countInfoBackend a + countInfoBackend b := by
  simp [countInfoBackend, List.filter_append]

/-- Unfolding equation for one loop iteration of `NewConnection`. -/
theorem NewConnection_cons (cm : ConnectionManager) (env : AttemptEnv)
    (rest : List AttemptEnv) :
    NewConnection cm (env :: rest) =
      if (attemptStep cm env).2.2 = StepResult.again then
        ((NewConnection (attemptStep cm env).1 rest).1,
         (attemptStep cm env).2.1 ++ (NewConnection (attemptStep cm env).1 rest).2.1,
         (NewConnection (attemptStep cm env).1 rest).2.2)
      else
        ((attemptStep cm env).1, (attemptStep cm env).2.1,
         some (attemptStep cm env).2.2) := by
  conv_lhs => unfold NewConnection
  rcases h : (attemptStep cm env).2.2 <;> simp [h]

/-- `securePhase` leaves the configuration fields and `firstConn` untouched. -/
theorem securePhase_fields (cm : ConnectionManager) (evs : List Event)
    (outConn : ConnValue) (env : AttemptEnv) :
    (securePhase cm evs outConn env).1.connectionString = cm.connectionString ∧
    (securePhase cm evs outConn env).1.serverName = cm.serverName ∧
    (securePhase cm evs outConn env).1.devModeNoSSL = cm.devModeNoSSL ∧
    (securePhase cm evs outConn env).1.socksProxy = cm.socksProxy ∧
    (securePhase cm evs outConn env).1.firstConn = cm.firstConn := by
  unfold securePhase
  split_ifs <;> simp

/-- How `securePhase` treats `retries`: untouched on a retry or a crash,
zeroed exactly on a return. -/
theorem securePhase_retries (cm : ConnectionManager) (evs : List Event)
    (outConn : ConnValue) (env : AttemptEnv) :
    ((securePhase cm evs outConn env).2.2 = StepResult.again →
      (securePhase cm evs outConn env).1.retries = cm.retries) ∧
    (∀ c, (securePhase cm evs outConn env).2.2 = StepResult.ret c →
      (securePhase cm evs outConn env).1.retries = 0) ∧
    ((securePhase cm evs outConn env).2.2 = StepResult.crashed →
      (securePhase cm evs outConn env).1.retries = cm.retries) := by
  unfold securePhase
  split_ifs <;> simp

/-- One loop iteration leaves the configuration fields untouched and always
ends with `firstConn = false`. -/
theorem attemptStep_fields (cm : ConnectionManager) (env : AttemptEnv) :
    (attemptStep cm env).1.connectionString = cm.connectionString ∧
    (attemptStep cm env).1.serverName = cm.serverName ∧
    (attemptStep cm env).1.devModeNoSSL = cm.devModeNoSSL ∧
    (attemptStep cm env).1.socksProxy = cm.socksProxy ∧
    (attemptStep cm env).1.firstConn = false := by
  unfold attemptStep
  split_ifs <;> simp [securePhase_fields]

/-- How one loop iteration changes `retries`: incremented on a retry or a
crash, zeroed exactly on a return. -/
theorem attemptStep_retries (cm : ConnectionManager) (env : AttemptEnv) :
    ((attemptStep cm env).2.2 = StepResult.again →
      (attemptStep cm env).1.retries = cm.retries + 1) ∧
    (∀ c, (attemptStep cm env).2.2 = StepResult.ret c →
      (attemptStep cm env).1.retries = 0) ∧
    ((attemptStep cm env).2.2 = StepResult.crashed →
      (attemptStep cm env).1.retries = cm.retries + 1) := by
  unfold attemptStep
  split_ifs <;>
    refine ⟨fun h => ?_, fun c h => ?_, fun h => ?_⟩ <;>
    first
      | (simp_all; done)
      | (rw [(securePhase_retries _ _ _ _).1 h]; try simp; done)
      | (rw [(securePhase_retries _ _ _ _).2.1 c h]; try simp; done)
      | (rw [(securePhase_retries _ _ _ _).2.2 h]; try simp; done)

theorem attemptStep_retries_nonneg (cm : ConnectionManager) (env : AttemptEnv)
    (h : 0 ≤ cm.retries) : 0 ≤ (attemptStep cm env).1.retries := by
  rcases hs : (attemptStep cm env).2.2 with _ | c | _
  · rw [(attemptStep_retries cm env).1 hs]; omega
  · rw [(attemptStep_retries cm env).2.1 c hs]
  · rw [(attemptStep_retries cm env).2.2 hs]; omega

/-- `retries` stays nonnegative across the whole retry loop. -/
theorem NewConnection_retries_nonneg (envs : List AttemptEnv)
    (cm : ConnectionManager) (h : 0 ≤ cm.retries) :
    0 ≤ (NewConnection cm envs).1.retries := by
  induction envs generalizing cm with
  | nil => simpa [NewConnection] using h
  | cons env rest ih =>
    rw [NewConnection_cons]
    by_cases hc : (attemptStep cm env).2.2 = StepResult.again
    · rw [if_pos hc]
      exact ih _ (attemptStep_retries_nonneg cm env h)
    · rw [if_neg hc]
      exact attemptStep_retries_nonneg cm env h

/-- Whenever the retry loop returns a connection, `retries` has just been
reset to zero. -/
theorem NewConnection_ret_retries_zero (envs : List AttemptEnv)
    (cm : ConnectionManager) (c : ConnValue)
    (h : (NewConnection cm envs).2.2 = some (StepResult.ret c)) :
    (NewConnection cm envs).1.retries = 0 := by
  induction envs generalizing cm with
  | nil => simp [NewConnection] at h
  | cons env rest ih =>
    rw [NewConnection_cons] at h ⊢
    by_cases hc : (attemptStep cm env).2.2 = StepResult.again
    · rw [if_pos hc] at h ⊢
      exact ih _ h
    · rw [if_neg hc] at h ⊢
      exact (attemptStep_retries cm env).2.1 c (by simpa using h)

/-- C3: for all retryCount ≥ 0, the backoff sleep duration equals
min(2 * retryCount, 30) seconds. -/
theorem c3_backoff_eq_min (retryCount : Int) (h : 0 ≤ retryCount) :
    backoff retryCount = min (2 * retryCount) 30 := by
  simp only [backoff, backoffSleepTimeUnit, maxBackoffSleepTime]
  split <;> omega

theorem c3_backoff_eq_min_witness :
    ((0:Int) ≤ 0 ∧ backoff 0 = min (2 * 0) 30) ∧
    ((0:Int) ≤ 15 ∧ backoff 15 = min (2 * 15) 30) ∧
    ((0:Int) ≤ 100 ∧ backoff 100 = min (2 * 100) 30) :=
  ⟨⟨by decide, c3_backoff_eq_min 0 (by decide)⟩,
   ⟨by decide, c3_backoff_eq_min 15 (by decide)⟩,
   ⟨by decide, c3_backoff_eq_min 100 (by decide)⟩⟩

/-- C5: the close-watcher closes the connection and terminates on
end-of-stream; on any other read error it warns and terminates without
closing; a successfully read byte is discarded (the result does not depend
on its value) and the loop continues watching. -/
theorem c5_handleServerClose_spec (rest : List ReadResult) (b : Nat) :
    handleServerClose (ReadResult.eof :: rest) =
      ([Event.close], WatcherEnd.closedConn) ∧
    (handleServerClose (ReadResult.readErr :: rest) =
      ([Event.warn], WatcherEnd.stoppedOnError) ∧
      Event.close ∉ (handleServerClose (ReadResult.readErr :: rest)).1) ∧
    handleServerClose (ReadResult.okByte b :: rest) = handleServerClose rest := by
  refine ⟨rfl, ⟨rfl, ?_⟩, rfl⟩
  simp [handleServerClose]

/-- C1 fails on the code: with a SOCKS5 proxy configured and dev mode
enabled, a failed proxy dial is not caught (the dial error lands in a
shadowed variable), so `NewConnection` returns the nil conn to the caller
instead of retrying or blocking. -/
theorem c1_nil_conn_returned :
    (NewConnection (NewConnectionManager "intake.logs.datadoghq.com" 10516
        true "127.0.0.1:1080")
      [{ proxyConstructErr := false, dialErr := true, handshakeErr := false }]).2.2
      = some (StepResult.ret ConnValue.nilConn) := by
  decide

/-- C2 fails on the code: a dial error on the SOCKS5-proxied path produces
no warning and no backoff sleep, and the iteration proceeds to the TLS
handshake (which dereferences the nil conn) instead of restarting the
loop. -/
theorem c2_proxy_dial_error_skips_retry :
    (Event.warn ∉ (NewConnection (NewConnectionManager
        "intake.logs.datadoghq.com" 10516 false "127.0.0.1:1080")
        [{ proxyConstructErr := false, dialErr := true, handshakeErr := false }]).2.1) ∧
    ((NewConnection (NewConnectionManager
        "intake.logs.datadoghq.com" 10516 false "127.0.0.1:1080")
        [{ proxyConstructErr := false, dialErr := true, handshakeErr := false }]).2.1.all
      (fun e => !isBackoffSleep e) = true) ∧
    (Event.tlsHandshake "intake.logs.datadoghq.com" ∈ (NewConnection
        (NewConnectionManager "intake.logs.datadoghq.com" 10516 false "127.0.0.1:1080")
        [{ proxyConstructErr := false, dialErr := true, handshakeErr := false }]).2.1) ∧
    (NewConnection (NewConnectionManager
        "intake.logs.datadoghq.com" 10516 false "127.0.0.1:1080")
        [{ proxyConstructErr := false, dialErr := true, handshakeErr := false }]).2.2
      = some StepResult.crashed := by
  decide

/-- C4: `retries` is never negative, is only incremented while an attempt is
in progress (a retrying iteration sets it to its predecessor plus one), is
reset to zero exactly when an attempt succeeds, and equals zero after every
successful return of `NewConnection`. -/
theorem c4_retries_invariant (cm : ConnectionManager) (env : AttemptEnv)
    (envs : List AttemptEnv) (h : 0 ≤ cm.retries) :
    0 ≤ (attemptStep cm env).1.retries ∧
    ((attemptStep cm env).2.2 = StepResult.again →
      (attemptStep cm env).1.retries = cm.retries + 1) ∧
    (∀ c, (attemptStep cm env).2.2 = StepResult.ret c →
      (attemptStep cm env).1.retries = 0) ∧
    0 ≤ (NewConnection cm envs).1.retries ∧
    (∀ c, (NewConnection cm envs).2.2 = some (StepResult.ret c) →
      (NewConnection cm envs).1.retries = 0) :=
  ⟨attemptStep_retries_nonneg cm env h, (attemptStep_retries cm env).1,
   (attemptStep_retries cm env).2.1,
   NewConnection_retries_nonneg envs cm h,
   fun c hc => NewConnection_ret_retries_zero envs cm c hc⟩

theorem c4_retries_invariant_witness :
    0 ≤ (attemptStep (NewConnectionManager "intake.logs.datadoghq.com" 10516 true "")
      { proxyConstructErr := false, dialErr := false, handshakeErr := false }).1.retries :=
  (c4_retries_invariant (NewConnectionManager "intake.logs.datadoghq.com" 10516 true "")
    { proxyConstructErr := false, dialErr := false, handshakeErr := false }
    [] (by decide)).1

/-- Any backoff sleep recorded inside `securePhase` was either already in the
incoming trace or uses the current retry counter. -/
theorem securePhase_backoff_val (cm : ConnectionManager) (evs : List Event)
    (outConn : ConnValue) (env : AttemptEnv) (d : Int)
    (h : Event.backoffSleep d ∈ (securePhase cm evs outConn env).2.1) :
    Event.backoffSleep d ∈ evs ∨ d = backoff cm.retries := by
  unfold securePhase at h
  split_ifs at h <;> simp_all

/-- Every backoff sleep recorded by one loop iteration uses the
already-incremented retry counter. -/
theorem attemptStep_backoff_val (cm : ConnectionManager) (env : AttemptEnv)
    (d : Int) (h : Event.backoffSleep d ∈ (attemptStep cm env).2.1) :
    d = backoff (cm.retries + 1) := by
  unfold attemptStep at h
  split_ifs at h <;>
    first
      | (simp_all; done)
      | (rcases securePhase_backoff_val _ _ _ _ _ h with h2 | h2 <;> simp_all)

theorem backoff_bounds (r : Int) (h : 1 ≤ r) :
    2 ≤ backoff r ∧ backoff r ≤ 30 := by
  simp only [backoff, backoffSleepTimeUnit, maxBackoffSleepTime]
  split <;> omega

/-- C10: starting from a nonnegative retry counter, every backoff sleep
performed inside `NewConnection` happens after the increment, so it lasts at
least 2 and at most 30 seconds; a zero-length sleep never occurs. -/
theorem c10_backoff_sleep_bounds (cm : ConnectionManager)
    (envs : List AttemptEnv) (h : 0 ≤ cm.retries) (d : Int)
    (hd : Event.backoffSleep d ∈ (NewConnection cm envs).2.1) :
    2 ≤ d ∧ d ≤ 30 := by
  induction envs generalizing cm with
  | nil => simp [NewConnection] at hd
  | cons env rest ih =>
    rw [NewConnection_cons] at hd
    by_cases hc : (attemptStep cm env).2.2 = StepResult.again
    · rw [if_pos hc] at hd
      rcases List.mem_append.mp hd with h1 | h1
      · have hv := attemptStep_backoff_val cm env d h1
        subst hv
        exact backoff_bounds _ (by omega)
      · exact ih _ (attemptStep_retries_nonneg cm env h) h1
    · rw [if_neg hc] at hd
      have hv := attemptStep_backoff_val cm env d hd
      subst hv
      exact backoff_bounds _ (by omega)

theorem c10_backoff_sleep_bounds_witness : 2 ≤ (2:Int) ∧ (2:Int) ≤ 30 :=
  c10_backoff_sleep_bounds
    (NewConnectionManager "intake.logs.datadoghq.com" 10516 true "")
    [{ proxyConstructErr := false, dialErr := true, handshakeErr := false }]
    (by decide) 2 (by decide)

/-- With dev mode enabled, `securePhase` is just the success epilogue: no
handshake, and the conn returned is exactly the one handed in. -/
theorem securePhase_devmode (cm : ConnectionManager) (evs : List Event)
    (outConn : ConnValue) (env : AttemptEnv) (h : cm.devModeNoSSL = true) :
    securePhase cm evs outConn env =
      ({ cm with retries := 0 }, evs ++ [Event.startWatcher],
       StepResult.ret outConn) := by
  unfold securePhase
  rw [if_neg (by simp [h])]

/-- With dev mode enabled, one loop iteration records no TLS handshake and
can only return the conn produced by the dial statement. -/
theorem attemptStep_devmode (cm : ConnectionManager) (env : AttemptEnv)
    (h : cm.devModeNoSSL = true) :
    (∀ s, Event.tlsHandshake s ∉ (attemptStep cm env).2.1) ∧
    (∀ c, (attemptStep cm env).2.2 = StepResult.ret c → c = dialedConn env) := by
  unfold attemptStep
  split_ifs <;>
    (try rw [securePhase_devmode _ _ _ _ (by simpa using h)]) <;>
    simp_all [dialedConn]

/-- C6: with insecure/dev mode enabled, no TLS handshake is ever attempted
by `NewConnection`, and any returned stream is exactly the value produced by
the dial step of one of the attempts (in particular it is never
TLS-wrapped). -/
theorem c6_devmode_no_tls (cm : ConnectionManager) (envs : List AttemptEnv)
    (h : cm.devModeNoSSL = true) :
    (∀ s, Event.tlsHandshake s ∉ (NewConnection cm envs).2.1) ∧
    (∀ c, (NewConnection cm envs).2.2 = some (StepResult.ret c) →
      (∃ env ∈ envs, c = dialedConn env) ∧ ∀ c0, c ≠ ConnValue.tls c0) := by
  induction envs generalizing cm with
  | nil => simp [NewConnection]
  | cons env rest ih =>
    have hdev : (attemptStep cm env).1.devModeNoSSL = true := by
      rw [(attemptStep_fields cm env).2.2.1]; exact h
    rcases ih (attemptStep cm env).1 hdev with ⟨ih1, ih2⟩
    rcases attemptStep_devmode cm env h with ⟨s1, s2⟩
    rw [NewConnection_cons]
    by_cases hc : (attemptStep cm env).2.2 = StepResult.again
    · rw [if_pos hc]
      constructor
      · intro s hm
        rcases List.mem_append.mp hm with hm2 | hm2
        · exact s1 s hm2
        · exact ih1 s hm2
      · intro c hcret
        rcases ih2 c hcret with ⟨⟨e, he, he2⟩, hnt⟩
        exact ⟨⟨e, List.mem_cons_of_mem _ he, he2⟩, hnt⟩
    · rw [if_neg hc]
      constructor
      · intro s hm
        exact s1 s hm
      · intro c hcret
        have hr : (attemptStep cm env).2.2 = StepResult.ret c := by
          simpa using hcret
        have hce := s2 c hr
        refine ⟨⟨env, List.mem_cons_self _ _, hce⟩, ?_⟩
        intro c0
        rw [hce]
        unfold dialedConn
        split <;> simp

theorem c6_devmode_no_tls_witness :
    Event.tlsHandshake "intake.logs.datadoghq.com" ∉
      (NewConnection
        (NewConnectionManager "intake.logs.datadoghq.com" 10516 true "")
        [{ proxyConstructErr := false, dialErr := false, handshakeErr := false }]).2.1 :=
  (c6_devmode_no_tls
    (NewConnectionManager "intake.logs.datadoghq.com" 10516 true "")
    [{ proxyConstructErr := false, dialErr := false, handshakeErr := false }]
    rfl).1 "intake.logs.datadoghq.com"

/-- Events already in the trace survive `securePhase`. -/
theorem securePhase_mem_left (cm : ConnectionManager) (evs : List Event)
    (outConn : ConnValue) (env : AttemptEnv) (e : Event) (h : e ∈ evs) :
    e ∈ (securePhase cm evs outConn env).2.1 := by
  unfold securePhase
  split_ifs <;> simp [h]

/-- Any event in the trace produced by `securePhase` is either inherited or
one of the TLS-phase events. -/
theorem securePhase_mem (cm : ConnectionManager) (evs : List Event)
    (outConn : ConnValue) (env : AttemptEnv) (e : Event)
    (h : e ∈ (securePhase cm evs outConn env).2.1) :
    e ∈ evs ∨ e = Event.tlsHandshake cm.serverName ∨ e = Event.warn ∨
      isBackoffSleep e = true ∨ e = Event.startWatcher := by
  unfold securePhase at h
  split_ifs at h <;> aesop

/-- Inventory of the events one loop iteration can emit: dials through the
proxy are always to the configured proxy and target with no authentication,
and direct dials are always to the target. -/
theorem attemptStep_mem (cm : ConnectionManager) (env : AttemptEnv) (e : Event)
    (h : e ∈ (attemptStep cm env).2.1) :
    e = Event.infoBackend cm.connectionString ∨
    (cm.socksProxy ≠ "" ∧
      (e = Event.infoProxy cm.socksProxy ∨
       e = Event.dialProxy cm.socksProxy cm.connectionString false)) ∨
    (cm.socksProxy = "" ∧ e = Event.dialDirect cm.connectionString timeout) ∨
    e = Event.tlsHandshake cm.serverName ∨ e = Event.warn ∨
    isBackoffSleep e = true ∨ e = Event.startWatcher := by
  unfold attemptStep at h
  split_ifs at h <;>
    first
      | (rcases securePhase_mem _ _ _ _ _ h with h2 | h2 <;> aesop)
      | aesop

/-- With a proxy configured and proxy construction succeeding, the iteration
dials the target through the SOCKS5 proxy with no authentication. -/
theorem attemptStep_dialProxy_mem (cm : ConnectionManager) (env : AttemptEnv)
    (hp : cm.socksProxy ≠ "") (hc : env.proxyConstructErr = false) :
    Event.dialProxy cm.socksProxy cm.connectionString false ∈
      (attemptStep cm env).2.1 := by
  unfold attemptStep
  split_ifs <;>
    first
      | (simp_all; done)
      | (apply securePhase_mem_left; simp)

/-- With no proxy configured, the iteration dials the target directly with
the fixed 20-second timeout. -/
theorem attemptStep_dialDirect_mem (cm : ConnectionManager) (env : AttemptEnv)
    (hp : cm.socksProxy = "") :
    Event.dialDirect cm.connectionString timeout ∈ (attemptStep cm env).2.1 := by
  unfold attemptStep
  split_ifs <;>
    first
      | (simp_all; done)
      | (apply securePhase_mem_left; simp)

/-- C7: when a proxy address is configured, every dial of an attempt goes
through the SOCKS5 dialer (with no proxy-side authentication) to the target
and never directly; when the proxy address is empty, the target is dialed
directly with the fixed 20-second connect timeout. -/
theorem c7_dial_routing (cm : ConnectionManager) (env : AttemptEnv) :
    (cm.socksProxy ≠ "" →
      (∀ t d, Event.dialDirect t d ∉ (attemptStep cm env).2.1) ∧
      (∀ a t b, Event.dialProxy a t b ∈ (attemptStep cm env).2.1 →
        a = cm.socksProxy ∧ t = cm.connectionString ∧ b = false) ∧
      (env.proxyConstructErr = false →
        Event.dialProxy cm.socksProxy cm.connectionString false ∈
          (attemptStep cm env).2.1)) ∧
    (cm.socksProxy = "" →
      (∀ a t b, Event.dialProxy a t b ∉ (attemptStep cm env).2.1) ∧
      timeout = 20 ∧
      Event.dialDirect cm.connectionString timeout ∈ (attemptStep cm env).2.1) := by
  constructor
  · intro hp
    refine ⟨?_, ?_, fun hc => attemptStep_dialProxy_mem cm env hp hc⟩
    · intro t d hm
      rcases attemptStep_mem cm env _ hm with h | h | h | h | h | h | h <;>
        simp_all
    · intro a t b hm
      rcases attemptStep_mem cm env _ hm with h | h | h | h | h | h | h <;>
        simp_all
  · intro hp
    refine ⟨?_, rfl, attemptStep_dialDirect_mem cm env hp⟩
    intro a t b hm
    rcases attemptStep_mem cm env _ hm with h | h | h | h | h | h | h <;>
      simp_all

theorem c7_dial_routing_witness :
    Event.dialProxy
      (NewConnectionManager "intake.logs.datadoghq.com" 10516 false
        "127.0.0.1:1080").socksProxy
      (NewConnectionManager "intake.logs.datadoghq.com" 10516 false
        "127.0.0.1:1080").connectionString
      false ∈
      (attemptStep
        (NewConnectionManager "intake.logs.datadoghq.com" 10516 false
          "127.0.0.1:1080")
        { proxyConstructErr := false, dialErr := false, handshakeErr := false }).2.1 :=
  ((c7_dial_routing
      (NewConnectionManager "intake.logs.datadoghq.com" 10516 false
        "127.0.0.1:1080")
      { proxyConstructErr := false, dialErr := false, handshakeErr := false }).1
    (by decide)).2.2 rfl

/-- With TLS enabled and a non-nil conn, a failed handshake warns, sleeps and
retries, leaving the trace suffix fully determined. -/
theorem securePhase_handshake_fail (cm : ConnectionManager) (evs : List Event)
    (env : AttemptEnv) (hdev : cm.devModeNoSSL = false)
    (hhs : env.handshakeErr = true) :
    securePhase cm evs ConnValue.raw env =
      (cm, evs ++ [Event.tlsHandshake cm.serverName, Event.warn,
                   Event.backoffSleep (backoff cm.retries)],
       StepResult.again) := by
  unfold securePhase
  rw [if_pos hdev, if_neg (by simp), if_pos hhs]

/-- C9: on a TLS handshake failure, the manager closes nothing — no close
effect appears in the trace of the attempt — and the attempt ends with the
warning, the backoff sleep, and a restart of the loop (the raw dialed stream
is left open). -/
theorem c9_handshake_failure_closes_nothing (cm : ConnectionManager)
    (env : AttemptEnv) (hdev : cm.devModeNoSSL = false)
    (hpe : env.proxyConstructErr = false) (hde : env.dialErr = false)
    (hhs : env.handshakeErr = true) :
    Event.close ∉ (attemptStep cm env).2.1 ∧
    (attemptStep cm env).2.2 = StepResult.again ∧
    ∃ pre, (attemptStep cm env).2.1 =
      pre ++ [Event.tlsHandshake cm.serverName, Event.warn,
              Event.backoffSleep (backoff (cm.retries + 1))] ∧
      Event.close ∉ pre := by
  have hdc : dialedConn env = ConnValue.raw := by simp [dialedConn, hde]
  unfold attemptStep
  split_ifs <;> simp_all <;>
    rw [securePhase_handshake_fail _ _ _ rfl hhs] <;>
    refine ⟨by simp, rfl, _, rfl, by simp⟩

theorem c9_handshake_failure_closes_nothing_witness :
    Event.close ∉ (attemptStep
      (NewConnectionManager "intake.logs.datadoghq.com" 10516 false "")
      { proxyConstructErr := false, dialErr := false, handshakeErr := true }).2.1 :=
  (c9_handshake_failure_closes_nothing
    (NewConnectionManager "intake.logs.datadoghq.com" 10516 false "")
    { proxyConstructErr := false, dialErr := false, handshakeErr := true }
    rfl rfl rfl rfl).1

/-- The events `securePhase` appends after the incoming trace. -/
def securePhaseSuffix (cm : ConnectionManager) (outConn : ConnValue)
    (env : AttemptEnv) : List Event :=
  if cm.devModeNoSSL = false then
    if outConn = ConnValue.nilConn then [Event.tlsHandshake cm.serverName]
    else if env.handshakeErr then
      [Event.tlsHandshake cm.serverName, Event.warn,
       Event.backoffSleep (backoff cm.retries)]
    else [Event.tlsHandshake cm.serverName, Event.startWatcher]
  else [Event.startWatcher]

theorem securePhase_trace_eq (cm : ConnectionManager) (evs : List Event)
    (outConn : ConnValue) (env : AttemptEnv) :
    (securePhase cm evs outConn env).2.1 =
      evs ++ securePhaseSuffix cm outConn env := by
  unfold securePhase securePhaseSuffix
  split_ifs <;> rfl

theorem securePhaseSuffix_info_filter (cm : ConnectionManager)
    (outConn : ConnValue) (env : AttemptEnv) :
    (securePhaseSuffix cm outConn env).filter isInfoBackend = [] := by
  unfold securePhaseSuffix
  split_ifs <;> simp [isInfoBackend]

/-- One loop iteration emits the backend info line exactly when `firstConn`
was set. -/
theorem attemptStep_info_count (cm : ConnectionManager) (env : AttemptEnv) :
    countInfoBackend (attemptStep cm env).2.1 =
      (if cm.firstConn then 1 else 0) := by
  unfold attemptStep
  split_ifs <;>
    simp_all [countInfoBackend, securePhase_trace_eq,
      securePhaseSuffix_info_filter, List.filter_append, isInfoBackend]

/-- Once `firstConn` is off, the loop never emits the backend info line and
never turns the flag back on. -/
theorem NewConnection_info_count_false (envs : List AttemptEnv)
    (cm : ConnectionManager) (h : cm.firstConn = false) :
    countInfoBackend (NewConnection cm envs).2.1 = 0 ∧
    (NewConnection cm envs).1.firstConn = false := by
  induction envs generalizing cm with
  | nil => simp [NewConnection, countInfoBackend, h]
  | cons env rest ih =>
    rw [NewConnection_cons]
    by_cases hc : (attemptStep cm env).2.2 = StepResult.again
    · rw [if_pos hc]
      rcases ih (attemptStep cm env).1 (attemptStep_fields cm env).2.2.2.2 with
        ⟨h1, h2⟩
      refine ⟨?_, h2⟩
      rw [countInfoBackend_append, h1, attemptStep_info_count, h]
      simp
    · rw [if_neg hc]
      refine ⟨?_, (attemptStep_fields cm env).2.2.2.2⟩
      rw [attemptStep_info_count, h]
      simp

/-- A call that performs at least one attempt emits the backend info line
exactly when `firstConn` was set, and always clears the flag. -/
theorem NewConnection_info_count_cons (cm : ConnectionManager)
    (env : AttemptEnv) (rest : List AttemptEnv) :
    countInfoBackend (NewConnection cm (env :: rest)).2.1 =
      (if cm.firstConn then 1 else 0) ∧
    (NewConnection cm (env :: rest)).1.firstConn = false := by
  rw [NewConnection_cons]
  by_cases hc : (attemptStep cm env).2.2 = StepResult.again
  · rw [if_pos hc]
    rcases NewConnection_info_count_false rest (attemptStep cm env).1
      (attemptStep_fields cm env).2.2.2.2 with ⟨h1, h2⟩
    refine ⟨?_, h2⟩
    rw [countInfoBackend_append, h1, attemptStep_info_count]
    simp
  · rw [if_neg hc]
    exact ⟨attemptStep_info_count cm env, (attemptStep_fields cm env).2.2.2.2⟩

theorem runCalls_cons (cm : ConnectionManager) (envs : List AttemptEnv)
    (rest : List (List AttemptEnv)) :
    runCalls cm (envs :: rest) =
      ((runCalls (NewConnection cm envs).1 rest).1,
       (NewConnection cm envs).2.1 ++ (runCalls (NewConnection cm envs).1 rest).2) :=
  rfl

/-- Across any sequence of calls, the backend info line is emitted exactly
once when the flag was set and some call performs an attempt. -/
theorem runCalls_info_count (calls : List (List AttemptEnv))
    (cm : ConnectionManager) :
    countInfoBackend (runCalls cm calls).2 =
      (if cm.firstConn && calls.any (fun l => !l.isEmpty) then 1 else 0) ∧
    (runCalls cm calls).1.firstConn =
      (cm.firstConn && !calls.any (fun l => !l.isEmpty)) := by
  induction calls generalizing cm with
  | nil => simp [runCalls, countInfoBackend]
  | cons envs rest ih =>
    rw [runCalls_cons, countInfoBackend_append]
    rcases envs with _ | ⟨env, er⟩
    · have hnil : NewConnection cm [] = (cm, [], none) := rfl
      rw [hnil]
      rcases ih cm with ⟨h1, h2⟩
      constructor
      · simpa [countInfoBackend] using h1
      · simpa using h2
    · rcases NewConnection_info_count_cons cm env er with ⟨h1, h2⟩
      rcases ih (NewConnection cm (env :: er)).1 with ⟨h3, h4⟩
      rw [h2] at h3 h4
      simp only [Bool.false_and, if_false, Bool.false_and] at h3 h4
      constructor
      · rw [h1, h3]
        simp [List.any_cons]
      · rw [h4]
        simp [List.any_cons]

/-- When the flag is set, the very first event of the iteration is the
backend info line. -/
theorem attemptStep_trace_head (cm : ConnectionManager) (env : AttemptEnv)
    (h : cm.firstConn = true) :
    ∃ t, (attemptStep cm env).2.1 =
      Event.infoBackend cm.connectionString :: t := by
  unfold attemptStep
  split_ifs <;> simp_all [securePhase_trace_eq]

theorem NewConnection_trace_head (cm : ConnectionManager) (env : AttemptEnv)
    (rest : List AttemptEnv) (h : cm.firstConn = true) :
    ∃ t, (NewConnection cm (env :: rest)).2.1 =
      Event.infoBackend cm.connectionString :: t := by
  rw [NewConnection_cons]
  rcases attemptStep_trace_head cm env h with ⟨t, ht⟩
  by_cases hc : (attemptStep cm env).2.2 = StepResult.again
  · rw [if_pos hc]
    exact ⟨t ++ (NewConnection (attemptStep cm env).1 rest).2.1,
      by rw [ht]; simp⟩
  · rw [if_neg hc]
    exact ⟨t, ht⟩

theorem runCalls_trace_head (cm : ConnectionManager) (env : AttemptEnv)
    (er : List AttemptEnv) (more : List (List AttemptEnv))
    (h : cm.firstConn = true) :
    ∃ t, (runCalls cm ((env :: er) :: more)).2 =
      Event.infoBackend cm.connectionString :: t := by
  rw [runCalls_cons]
  rcases NewConnection_trace_head cm env er h with ⟨t, ht⟩
  exact ⟨t ++ (runCalls (NewConnection cm (env :: er)).1 more).2,
    by rw [ht]; simp⟩

/-- C8: across arbitrarily many acquisition calls and retries on one
manager, the "connecting to the backend" info line is emitted exactly once
when at least one attempt is made (and not at all before any attempt), and
it is the very first event emitted, on the very first attempt. -/
theorem c8_info_logged_once (serverName : String) (serverPort : Int)
    (devModeNoSSL : Bool) (socksProxy : String)
    (calls : List (List AttemptEnv)) :
    countInfoBackend
      (runCalls (NewConnectionManager serverName serverPort devModeNoSSL
        socksProxy) calls).2 =
      (if calls.any (fun l => !l.isEmpty) then 1 else 0) ∧
    (∀ env er more, calls = (env :: er) :: more →
      ∃ t, (runCalls (NewConnectionManager serverName serverPort devModeNoSSL
          socksProxy) calls).2 =
        Event.infoBackend (NewConnectionManager serverName serverPort
          devModeNoSSL socksProxy).connectionString :: t) := by
  constructor
  · have h := (runCalls_info_count calls
      (NewConnectionManager serverName serverPort devModeNoSSL socksProxy)).1
    simpa [NewConnectionManager] using h
  · intro env er more hcalls
    subst hcalls
    exact runCalls_trace_head _ env er more rfl

theorem c8_info_logged_once_witness :
    countInfoBackend
      (runCalls (NewConnectionManager "intake.logs.datadoghq.com" 10516 true "")
        [[{ proxyConstructErr := false, dialErr := true, handshakeErr := false },
          { proxyConstructErr := false, dialErr := false, handshakeErr := false }],
         [{ proxyConstructErr := false, dialErr := false, handshakeErr := false }]]).2 =
      (if ([[({ proxyConstructErr := false, dialErr := true,
                handshakeErr := false } : AttemptEnv),
             { proxyConstructErr := false, dialErr := false, handshakeErr := false }],
            [{ proxyConstructErr := false, dialErr := false, handshakeErr := false }]].any
          (fun l => !l.isEmpty)) then 1 else 0) :=
  (c8_info_logged_once "intake.logs.datadoghq.com" 10516 true ""
    [[{ proxyConstructErr := false, dialErr := true, handshakeErr := false },
      { proxyConstructErr := false, dialErr := false, handshakeErr := false }],
     [{ proxyConstructErr := false, dialErr := false, handshakeErr := false }]]).1
